import Mathlib

/-!
Verification of the facilitation session controller of AgileGamifAI,
a shallow embedding of `src/components/GameFacilitator.tsx`.

The controller owns three pieces of React state: `timeRemaining`
(initialised to `game.duration * 60`), `isRunning` (initialised to
`false`) and `currentStep` (initialised to `0`).  User intents reach it
through `toggleTimer` (one button that starts the clock when stopped and
pauses it when running), `resetTimer`, `prevStep` and `nextStep`; a
`setInterval` callback (`tick`) fires once per second while — and only
while — `isRunning` is true.  `formatTime` renders the remaining time
and `instructionSteps` derives the step list from the raw instruction
text.
-/

set_option maxRecDepth 4000

namespace AgileGamifAI

/-- The `Game` record of `src/types.ts`, restricted to the fields the
facilitator component reads (`title`, `duration` in minutes,
`materials`, `instructions`, `facilitationTips`); the catalogue-only
fields (id, framework, complexity, …) play no role in the session
controller. -/
structure Game where
  title : String
  duration : Int
  materials : List String
  instructions : String
  facilitationTips : String
  deriving Repr, DecidableEq

/-- The session's total countdown length in seconds: the component
computes `game.duration * 60` everywhere it needs it. -/
def totalDurationSeconds (g : Game) : Int :=
  g.duration * 60

/-- Embeds JavaScript `String.prototype.trim()`: remove whitespace
from both ends of the character sequence. -/
def trimChars (l : List Char) : List Char :=
  ((l.dropWhile Char.isWhitespace).reverse.dropWhile Char.isWhitespace).reverse

/-- Embeds JavaScript `String.prototype.split(sep)` for a one-character
separator: `"".split(c)` is `[""]`, and every occurrence of the
separator starts a new (possibly empty) field. -/
def splitOnChar (c : Char) : List Char → List (List Char)
  | [] => [[]]
  | x :: xs =>
    if x = c then [] :: splitOnChar c xs
    else
      match splitOnChar c xs with
      | [] => [[x]]
      | y :: ys => (x :: y) :: ys

/-- Embeds `instructionSteps` (GameFacilitator.tsx lines 25–29):
`game.instructions.trim().split('\n').map(line => line.trim()).filter(line => line.length > 0)`. -/
def instructionSteps (g : Game) : List String :=
  (((splitOnChar '\n' (trimChars g.instructions.data)).map
    (fun l => String.mk (trimChars l))).filter (fun line => 0 < line.length))

/-- The three `useState` cells owned by the component
(GameFacilitator.tsx lines 19–21). -/
structure SessionState where
  timeRemaining : Int
  isRunning : Bool
  currentStep : Nat
  deriving Repr, DecidableEq

/-- The initial state produced when the component is constructed:
`timeRemaining = game.duration * 60`, `isRunning = false`,
`currentStep = 0` (lines 19–21).  The component performs no validation
of the activity. -/
def initState (g : Game) : SessionState :=
  { timeRemaining := totalDurationSeconds g
    isRunning := false
    currentStep := 0 }

/-- The error taxonomy named by the specification for invalid
activities.  The source component contains no `throw` at all, so the
embedded constructor below never produces it. -/
inductive ConstructionError where
  | invalidActivity
  deriving Repr, DecidableEq

/-- Construction of the controller (the component body, lines 18–29):
it initialises the state cells and derives the step list,
unconditionally — there is no validity check and no failure path, so
the result is always `Except.ok`. -/
def construct (g : Game) : Except ConstructionError (SessionState × List String) :=
  Except.ok (initState g, instructionSteps g)

/-- Embeds `toggleTimer` (lines 54–56): `setIsRunning(!isRunning)`. -/
def toggleTimer (s : SessionState) : SessionState :=
  { s with isRunning := !s.isRunning }

/-- The user intent "start": pressing the timer button while it shows
Start/Resume, i.e. `toggleTimer` invoked in a non-running state (the
button is labelled Pause whenever `isRunning`, lines 147–151). -/
def start (s : SessionState) : SessionState :=
  if s.isRunning then s else toggleTimer s

/-- The user intent "pause": pressing the timer button while it shows
Pause, i.e. `toggleTimer` invoked in a running state. -/
def pause (s : SessionState) : SessionState :=
  if s.isRunning then toggleTimer s else s

/-- Embeds `resetTimer` (lines 58–61): `setIsRunning(false);
setTimeRemaining(game.duration * 60)`.  `currentStep` is untouched. -/
def resetTimer (g : Game) (s : SessionState) : SessionState :=
  { s with isRunning := false, timeRemaining := totalDurationSeconds g }

/-- The `setInterval` callback (lines 33–41), which exists only while
`isRunning` (the `useEffect` on lines 31–52 installs it when
`isRunning` becomes true and clears it when `isRunning` becomes false
or the component unmounts): if `prev <= 1` it sets `isRunning = false`
and returns `0`, otherwise it returns `prev - 1`.  When the timer is
not running no interval is scheduled, so `tick` is the identity. -/
def tick (s : SessionState) : SessionState :=
  if s.isRunning then
    if s.timeRemaining ≤ 1 then
      { s with timeRemaining := 0, isRunning := false }
    else
      { s with timeRemaining := s.timeRemaining - 1 }
  else s

/-- Embeds `prevStep` (lines 63–67): decrement `currentStep` when it is
positive, otherwise do nothing. -/
def prevStep (s : SessionState) : SessionState :=
  if 0 < s.currentStep then { s with currentStep := s.currentStep - 1 } else s

/-- Embeds `nextStep` (lines 69–76): if `currentStep < instructionSteps.length - 1`
(JavaScript number arithmetic, hence the `Int` comparison) increment the
index; otherwise leave the state unchanged and call `onComplete()`.  The
boolean records whether the session-complete signal `onComplete` was
emitted by this call. -/
def nextStep (g : Game) (s : SessionState) : SessionState × Bool :=
  if (s.currentStep : Int) < (instructionSteps g).length - 1 then
    ({ s with currentStep := s.currentStep + 1 }, false)
  else
    (s, true)

/-- Embeds the padding of `formatTime` (lines 12–16), which uses `String.prototype.padStart(2, '0')`
on each field; this is that padding for the arguments `2, '0'`. -/
def padStart2 (str : String) : String :=
  if str.length < 2 then
    String.mk (List.replicate (2 - str.length) '0') ++ str
  else str

/-- Embeds `formatTime` (lines 12–16): minutes are `Math.floor(t / 60)`,
seconds are `t % 60`, both rendered zero-padded to two digits and
joined by a colon.  The claims only concern non-negative inputs, for
which `Math.floor` of the exact division is `Nat` division. -/
def formatTime (t : Nat) : String :=
  padStart2 (toString (t / 60)) ++ ":" ++ padStart2 (toString (t % 60))

/-- The user intents plus the scheduler's tick, the alphabet of the
reachable-state claims. -/
inductive Op where
  | start
  | pause
  | reset
  | next
  | previous
  | tick
  deriving Repr, DecidableEq

/-- One operation applied to the session state (the completion signal
of `next` is delivered to the caller and does not feed back into the
state). -/
def applyOp (g : Game) (s : SessionState) : Op → SessionState
  | Op.start => start s
  | Op.pause => pause s
  | Op.reset => resetTimer g s
  | Op.next => (nextStep g s).1
  | Op.previous => prevStep s
  | Op.tick => tick s

/-- A finite sequence of operations applied in order. -/
def runOps (g : Game) (s : SessionState) (ops : List Op) : SessionState :=
  ops.foldl (applyOp g) s

/-- The format law as the specification words it, independently of the
source's conditional padding: each field is the decimal rendering of
`n / 60` (minutes, unbounded) respectively `n % 60`, preceded by
however many zeros bring it to at least two characters, the two fields
joined by a colon. -/
def formattedTimeSpec (n : Nat) : String :=
  (String.mk (List.replicate (2 - (toString (n / 60)).length) '0') ++ toString (n / 60))
    ++ ":"
    ++ (String.mk (List.replicate (2 - (toString (n % 60)).length) '0') ++ toString (n % 60))

/-- The state invariant of the specification: the clock stays within
`[0, totalDurationSeconds]` and the step cursor stays within the step
list. -/
def Invariant (g : Game) (s : SessionState) : Prop :=
  0 ≤ s.timeRemaining ∧ s.timeRemaining ≤ totalDurationSeconds g ∧
    s.currentStep < (instructionSteps g).length

/-- A concrete valid activity: one minute (60 seconds of countdown) and
two non-empty instruction lines. -/
def exGame : Game :=
  { title := "Example"
    duration := 1
    materials := []
    instructions := "first step\nsecond step"
    facilitationTips := "" }

/-- A concrete invalid activity: `duration = 0`, so
`totalDurationSeconds = 0`, violating the positivity requirement. -/
def exGameZeroDuration : Game :=
  { title := "Zero duration"
    duration := 0
    materials := []
    instructions := "only step"
    facilitationTips := "" }

/-- A concrete invalid activity: the instruction text contains only
whitespace, so it yields zero non-empty steps. -/
def exGameNoSteps : Game :=
  { title := "No steps"
    duration := 5
    materials := []
    instructions := "   \n \n"
    facilitationTips := "" }

/-- Helper: the conditional padding of the source equals the
unconditional zero-prefix form (when the string already has two
characters the prefix is empty). -/
theorem padStart2_eq (str : String) :
    padStart2 str = String.mk (List.replicate (2 - str.length) '0') ++ str := by
  unfold padStart2
  split
  · rfl
  · rename_i h
    rw [Nat.sub_eq_zero_of_le (Nat.le_of_not_lt h)]
    rfl

/-- Helper: the step list of the concrete valid activity. -/
theorem exGame_steps : instructionSteps exGame = ["first step", "second step"] := by
  decide

/-- C8: `formatTime` renders a non-negative `n` as unbounded minutes
`n / 60` and seconds `n % 60`, each zero-padded to at least two digits
and separated by a colon; in particular `formatTime 125 = "02:05"`,
`formatTime 0 = "00:00"`, and the minutes field is not clamped to 59
(`formatTime 3725 = "62:05"`). -/
theorem formatTime_matches_spec :
    (∀ n : Nat, formatTime n = formattedTimeSpec n) ∧
    formatTime 125 = "02:05" ∧ formatTime 0 = "00:00" ∧
    formatTime 3725 = "62:05" := by
  refine ⟨fun n => ?_, by decide, by decide, by decide⟩
  simp only [formatTime, formattedTimeSpec, padStart2_eq, String.append_assoc]

/-- C1 counterexample: the claim says construction with non-positive
`totalDurationSeconds` or with zero non-empty steps fails fast with a
`ConstructionError` and never produces the controller; in the source
there is no validation at all, and both invalid activities below yield
a controller instance. -/
theorem construct_invalid_counterexample :
    totalDurationSeconds exGameZeroDuration = 0 ∧
    instructionSteps exGameNoSteps = [] ∧
    construct exGameZeroDuration =
      Except.ok ({ timeRemaining := 0, isRunning := false, currentStep := 0 },
        ["only step"]) ∧
    construct exGameNoSteps =
      Except.ok ({ timeRemaining := 300, isRunning := false, currentStep := 0 },
        []) := by
  refine ⟨rfl, rfl, rfl, rfl⟩

/-- C1 (amended): construction never fails — for every activity,
including one with non-positive duration or zero non-empty steps, the
component is produced with the initial session state and the derived
step list, and no `ConstructionError` is ever raised. -/
theorem construct_never_fails :
    (∀ (g : Game) (e : ConstructionError), construct g ≠ Except.error e) ∧
    (∀ g : Game, construct g = Except.ok (initState g, instructionSteps g)) :=
  ⟨fun _ _ h => Except.noConfusion h, fun _ => rfl⟩

/-- C9: `resetTimer` only touches the timer portion of the state — the
step cursor is exactly what it was before the call, for every state and
activity (in particular it is not returned to 0). -/
theorem resetTimer_preserves_currentStep (g : Game) (s : SessionState) :
    (resetTimer g s).currentStep = s.currentStep := rfl

/-- C2 counterexample: the claim says `isRunning` is false whenever
`remainingSeconds = 0` in every reachable state and that `start()` at
zero changes nothing.  In the source, `toggleTimer` flips `isRunning`
unconditionally: from the valid activity `exGame` (60-second
countdown), running the clock to zero and pressing start again yields
the reachable state `timeRemaining = 0, isRunning = true`. -/
theorem start_at_zero_counterexample :
    (runOps exGame (initState exGame)
      (Op.start :: List.replicate 60 Op.tick)).timeRemaining = 0 ∧
    (runOps exGame (initState exGame)
      (Op.start :: List.replicate 60 Op.tick)).isRunning = false ∧
    (runOps exGame (initState exGame)
      (Op.start :: (List.replicate 60 Op.tick ++ [Op.start]))).timeRemaining = 0 ∧
    (runOps exGame (initState exGame)
      (Op.start :: (List.replicate 60 Op.tick ++ [Op.start]))).isRunning = true := by
  refine ⟨rfl, rfl, rfl, rfl⟩

/-- C2 (amended): calling `start()` in a non-running state with
`remainingSeconds = 0` does not reset the clock but does set
`isRunning` to true; the very next `tick()` returns the state to
exactly what it was before the `start()` (running flag back to false,
clock still 0). -/
theorem start_at_zero (s : SessionState) (h0 : s.timeRemaining = 0)
    (hr : s.isRunning = false) :
    start s = { s with isRunning := true } ∧
    (start s).timeRemaining = 0 ∧
    tick (start s) = s := by
  obtain ⟨t, r, c⟩ := s
  simp only at h0 hr
  subst h0; subst hr
  refine ⟨rfl, rfl, ?_⟩
  simp [start, toggleTimer, tick]

/-- Witness for the amended C2 at the concrete state
`(0, not running, step 3)`. -/
theorem start_at_zero_witness :
    start { timeRemaining := 0, isRunning := false, currentStep := 3 } =
      { timeRemaining := 0, isRunning := true, currentStep := 3 } ∧
    (start { timeRemaining := 0, isRunning := false, currentStep := 3 }).timeRemaining = 0 ∧
    tick (start { timeRemaining := 0, isRunning := false, currentStep := 3 }) =
      { timeRemaining := 0, isRunning := false, currentStep := 3 } :=
  start_at_zero { timeRemaining := 0, isRunning := false, currentStep := 3 } rfl rfl

/-- C4: `pause` is idempotent (a second consecutive `pause` changes
nothing), it is a no-op from a non-running state, and from a running
state it only clears `isRunning`, preserving `remainingSeconds` (and
the step cursor). -/
theorem pause_idempotent (s : SessionState) :
    pause (pause s) = pause s ∧
    (s.isRunning = false → pause s = s) ∧
    (s.isRunning = true → pause s = { s with isRunning := false }) ∧
    (pause s).timeRemaining = s.timeRemaining ∧
    (pause s).isRunning = false := by
  obtain ⟨t, r, c⟩ := s
  cases r <;> simp [pause, toggleTimer]

/-- Witness for C4 at two concrete states, one running and one not. -/
theorem pause_idempotent_witness :
    pause { timeRemaining := 10, isRunning := true, currentStep := 0 } =
      { timeRemaining := 10, isRunning := false, currentStep := 0 } ∧
    pause { timeRemaining := 7, isRunning := false, currentStep := 2 } =
      { timeRemaining := 7, isRunning := false, currentStep := 2 } :=
  ⟨(pause_idempotent { timeRemaining := 10, isRunning := true, currentStep := 0 }).2.2.1 rfl,
   (pause_idempotent { timeRemaining := 7, isRunning := false, currentStep := 2 }).2.1 rfl⟩

/-- C5 counterexample: the claim says every `tick()` in a Running state
strictly decreases `remainingSeconds` by exactly 1.  The state
`timeRemaining = 0, isRunning = true` is reachable (start pressed at an
expired clock), and there `tick()` leaves `remainingSeconds` unchanged
at 0. -/
theorem tick_at_zero_counterexample :
    (runOps exGame (initState exGame)
      (Op.start :: (List.replicate 60 Op.tick ++ [Op.start]))).isRunning = true ∧
    (runOps exGame (initState exGame)
      (Op.start :: (List.replicate 60 Op.tick ++ [Op.start]))).timeRemaining = 0 ∧
    (tick (runOps exGame (initState exGame)
      (Op.start :: (List.replicate 60 Op.tick ++ [Op.start])))).timeRemaining =
      (runOps exGame (initState exGame)
        (Op.start :: (List.replicate 60 Op.tick ++ [Op.start]))).timeRemaining := by
  refine ⟨rfl, rfl, rfl⟩

/-- C5 (amended): while Running with `remainingSeconds ≥ 1`, each
`tick()` decreases `remainingSeconds` by exactly 1; when the decrement
makes the result 0 the controller clears `isRunning` (so a further
`tick()` changes nothing); and once `remainingSeconds` is 0 no
`tick()` changes `remainingSeconds`. -/
theorem tick_countdown (s : SessionState) (hr : s.isRunning = true)
    (h1 : 1 ≤ s.timeRemaining) :
    (tick s).timeRemaining = s.timeRemaining - 1 ∧
    (s.timeRemaining = 1 → (tick s).isRunning = false ∧ tick (tick s) = tick s) ∧
    (∀ u : SessionState, u.timeRemaining = 0 → (tick u).timeRemaining = 0) := by
  obtain ⟨t, r, c⟩ := s
  simp only at hr h1
  subst hr
  refine ⟨?_, ?_, ?_⟩
  · by_cases h : t ≤ 1
    · have ht : t = 1 := le_antisymm h h1
      subst ht
      simp [tick]
    · simp [tick, h]
  · intro ht
    subst ht
    simp [tick]
  · intro u hu
    obtain ⟨ut, ur, uc⟩ := u
    simp only at hu
    subst hu
    cases ur <;> simp [tick]

/-- Witness for the amended C5 at the concrete running states with 1
and 0 seconds remaining. -/
theorem tick_countdown_witness :
    (tick { timeRemaining := 1, isRunning := true, currentStep := 0 }).timeRemaining = 0 ∧
    (tick { timeRemaining := 1, isRunning := true, currentStep := 0 }).isRunning = false ∧
    (tick { timeRemaining := 0, isRunning := true, currentStep := 2 }).timeRemaining = 0 := by
  obtain ⟨a, b, c⟩ :=
    tick_countdown { timeRemaining := 1, isRunning := true, currentStep := 0 } rfl (by norm_num)
  refine ⟨by rw [a]; decide, (b rfl).1, c { timeRemaining := 0, isRunning := true, currentStep := 2 } rfl⟩

/-- Helper: each single operation preserves the state invariant,
provided the session's total duration is positive. -/
theorem applyOp_invariant (g : Game) (s : SessionState) (op : Op)
    (hd : 0 < totalDurationSeconds g) (h : Invariant g s) :
    Invariant g (applyOp g s op) := by
  obtain ⟨h0, h1, h2⟩ := h
  cases op with
  | start =>
    show Invariant g (start s)
    unfold start toggleTimer
    split <;> exact ⟨h0, h1, h2⟩
  | pause =>
    show Invariant g (pause s)
    unfold pause toggleTimer
    split <;> exact ⟨h0, h1, h2⟩
  | reset =>
    exact ⟨le_of_lt hd, le_refl _, h2⟩
  | next =>
    show Invariant g ((nextStep g s).1)
    unfold nextStep
    split
    · rename_i hlt
      refine ⟨h0, h1, ?_⟩
      simp only
      omega
    · exact ⟨h0, h1, h2⟩
  | previous =>
    show Invariant g (prevStep s)
    unfold prevStep
    split
    · exact ⟨h0, h1, by simp only; omega⟩
    · exact ⟨h0, h1, h2⟩
  | tick =>
    show Invariant g (tick s)
    unfold tick
    split
    · split
      · exact ⟨le_refl 0, le_of_lt hd, h2⟩
      · rename_i hgt
        exact ⟨by simp only; omega, by simp only; omega, h2⟩
    · exact ⟨h0, h1, h2⟩

/-- C3: from a validly constructed session (positive total duration,
at least one step) every finite sequence of start/pause/reset/next/
previous/tick operations leads to a state with
`0 ≤ remainingSeconds ≤ totalDurationSeconds` and
`0 ≤ currentStepIndex < steps.length`. -/
theorem runOps_invariant (g : Game) (ops : List Op)
    (hd : 0 < totalDurationSeconds g)
    (hs : 0 < (instructionSteps g).length) :
    0 ≤ (runOps g (initState g) ops).timeRemaining ∧
    (runOps g (initState g) ops).timeRemaining ≤ totalDurationSeconds g ∧
    (runOps g (initState g) ops).currentStep < (instructionSteps g).length := by
  have main : ∀ (l : List Op) (s : SessionState),
      Invariant g s → Invariant g (runOps g s l) := by
    intro l
    induction l with
    | nil => exact fun s h => h
    | cons op l ih => exact fun s h => ih (applyOp g s op) (applyOp_invariant g s op hd h)
  exact main ops (initState g) ⟨le_of_lt hd, le_refl _, hs⟩

/-- Witness for C3 on the concrete valid activity `exGame` and a
concrete operation sequence. -/
theorem runOps_invariant_witness :
    0 ≤ (runOps exGame (initState exGame)
      [Op.start, Op.tick, Op.next, Op.reset, Op.previous]).timeRemaining ∧
    (runOps exGame (initState exGame)
      [Op.start, Op.tick, Op.next, Op.reset, Op.previous]).timeRemaining ≤
      totalDurationSeconds exGame ∧
    (runOps exGame (initState exGame)
      [Op.start, Op.tick, Op.next, Op.reset, Op.previous]).currentStep <
      (instructionSteps exGame).length :=
  runOps_invariant exGame [Op.start, Op.tick, Op.next, Op.reset, Op.previous]
    (by decide) (by decide)

/-- C6: after any finite operation sequence, `reset()` yields
`remainingSeconds = totalDurationSeconds` and `isRunning = false`, and
since no interval is scheduled while not running, a subsequent
`tick()` without an intervening `start()` leaves the state unchanged. -/
theorem reset_total_reset (g : Game) (ops : List Op) :
    (runOps g (initState g) (ops ++ [Op.reset])).timeRemaining =
      totalDurationSeconds g ∧
    (runOps g (initState g) (ops ++ [Op.reset])).isRunning = false ∧
    tick (runOps g (initState g) (ops ++ [Op.reset])) =
      runOps g (initState g) (ops ++ [Op.reset]) := by
  have hfold : runOps g (initState g) (ops ++ [Op.reset]) =
      resetTimer g (runOps g (initState g) ops) := by
    unfold runOps
    rw [List.foldl_append]
    rfl
  rw [hfold]
  exact ⟨rfl, rfl, by simp [tick, resetTimer]⟩

/-- C7: `previous()` at index 0 is the identity and otherwise
decrements the index by one; `next()` strictly below the last index
increments the index and emits no completion signal, while `next()` at
the last index leaves the index unchanged and emits the
session-complete signal. -/
theorem step_navigation (g : Game) (s : SessionState) :
    (s.currentStep = 0 → prevStep s = s) ∧
    (0 < s.currentStep →
      prevStep s = { s with currentStep := s.currentStep - 1 }) ∧
    (s.currentStep + 1 < (instructionSteps g).length →
      nextStep g s = ({ s with currentStep := s.currentStep + 1 }, false)) ∧
    (0 < (instructionSteps g).length →
      s.currentStep = (instructionSteps g).length - 1 →
      nextStep g s = (s, true)) := by
  refine ⟨?_, ?_, ?_, ?_⟩
  · intro h
    unfold prevStep
    rw [if_neg]
    omega
  · intro h
    unfold prevStep
    rw [if_pos h]
  · intro h
    unfold nextStep
    rw [if_pos]
    omega
  · intro h0 h
    unfold nextStep
    rw [if_neg]
    omega

/-- Witness for C7 on `exGame` (two steps) at the first and last
indices. -/
theorem step_navigation_witness :
    prevStep { timeRemaining := 60, isRunning := false, currentStep := 0 } =
      { timeRemaining := 60, isRunning := false, currentStep := 0 } ∧
    prevStep { timeRemaining := 60, isRunning := false, currentStep := 1 } =
      { timeRemaining := 60, isRunning := false, currentStep := 0 } ∧
    nextStep exGame { timeRemaining := 60, isRunning := false, currentStep := 0 } =
      ({ timeRemaining := 60, isRunning := false, currentStep := 1 }, false) ∧
    nextStep exGame { timeRemaining := 60, isRunning := false, currentStep := 1 } =
      ({ timeRemaining := 60, isRunning := false, currentStep := 1 }, true) := by
  obtain ⟨a1, -, a3, -⟩ :=
    step_navigation exGame { timeRemaining := 60, isRunning := false, currentStep := 0 }
  obtain ⟨-, b2, -, b4⟩ :=
    step_navigation exGame { timeRemaining := 60, isRunning := false, currentStep := 1 }
  refine ⟨a1 rfl, b2 (by decide), a3 ?_, b4 ?_ ?_⟩
  · rw [exGame_steps]
    decide
  · rw [exGame_steps]
    decide
  · rw [exGame_steps]
    decide

/-- C10: the session-complete signal is not latched — every `next()`
issued at the last index emits the signal again and leaves the index
unchanged, so iterating `next()` any number of times from the last
index keeps the state fixed and each call reports completion. -/
theorem complete_signal_not_latched (g : Game) (s : SessionState)
    (h : s.currentStep + 1 = (instructionSteps g).length) :
    nextStep g s = (s, true) ∧
    (∀ k : Nat, Nat.iterate (fun t => (nextStep g t).1) k s = s) ∧
    (∀ k : Nat,
      (nextStep g (Nat.iterate (fun t => (nextStep g t).1) k s)).2 = true) := by
  have hfix : nextStep g s = (s, true) := by
    unfold nextStep
    rw [if_neg]
    omega
  have hit : ∀ k : Nat, Nat.iterate (fun t => (nextStep g t).1) k s = s := by
    intro k
    exact Function.iterate_fixed (by rw [hfix]) k
  exact ⟨hfix, hit, fun k => by rw [hit k, hfix]⟩

/-- Witness for C10 on `exGame` at its last index, iterated five
times. -/
theorem complete_signal_not_latched_witness :
    nextStep exGame { timeRemaining := 60, isRunning := false, currentStep := 1 } =
      ({ timeRemaining := 60, isRunning := false, currentStep := 1 }, true) ∧
    Nat.iterate (fun t => (nextStep exGame t).1) 5
      { timeRemaining := 60, isRunning := false, currentStep := 1 } =
      { timeRemaining := 60, isRunning := false, currentStep := 1 } := by
  obtain ⟨a, b, -⟩ :=
    complete_signal_not_latched exGame
      { timeRemaining := 60, isRunning := false, currentStep := 1 }
      (by rw [exGame_steps]; decide)
  exact ⟨a, b 5⟩

end AgileGamifAI
